import Mathlib

/-!
Verification of the classification-and-aggregation engine of the file
system analyzer (`tool.py`), as a shallow embedding in Lean 4.

Byte strings are embedded as `List Nat`, Python `str` as `String`
(with the handful of `str` methods the code uses re-implemented over
the character list so that everything reduces), file-system effects
(`stat`, `open`) as explicit outcome values passed to the functions
that the Python code performs them in, and the analyzer's mutable
attributes as an explicit `ScanState` record threaded through the
scan loop.
-/

/-! ### Python string and number primitives used by the code -/

/-- Python `str.strip()` restricted to whitespace characters. -/
def pyStrip (s : String) : String :=
  ⟨((s.data.dropWhile Char.isWhitespace).reverse.dropWhile Char.isWhitespace).reverse⟩

/-- Python `str.upper()` (ASCII range, which is all the code feeds it). -/
def pyUpper (s : String) : String :=
  ⟨s.data.map Char.toUpper⟩

/-- Python `str.lower()` (ASCII range, which is all the code feeds it). -/
def pyLower (s : String) : String :=
  ⟨s.data.map Char.toLower⟩

/-- Python `s.endswith(suf)`. -/
def pyEndsWith (s suf : String) : Bool :=
  suf.data.isSuffixOf s.data

/-- Python `s[:-n]` for `n > 0` (drop the last `n` characters). -/
def pyDropRight (s : String) (n : Nat) : String :=
  ⟨s.data.take (s.data.length - n)⟩

/-- Numeric value of a list of ASCII digit characters. -/
def digitsToNat (l : List Char) : Nat :=
  l.foldl (fun a c => a * 10 + (c.toNat - 48)) 0

/-- Python's `float()` builtin restricted to the plain decimal forms
(`[+-]digits`, `[+-]digits.digits`, `[+-].digits`, `[+-]digits.`) that the
size strings under test exercise; the value is kept as an exact fraction
(numerator, positive denominator), not normalized so that everything
reduces by kernel arithmetic. Exotic inputs (`inf`, `nan`, exponents,
underscores) are outside the model. -/
def pyFloat (s : String) : Option (Int × Nat) :=
  let l := s.data
  let signed : Int × List Char :=
    match l with
    | '+' :: r => (1, r)
    | '-' :: r => (-1, r)
    | _ => (1, l)
  let sign := signed.1
  let l1 := signed.2
  let ip := l1.takeWhile Char.isDigit
  let rest := l1.dropWhile Char.isDigit
  match rest with
  | [] => if ip.isEmpty then none else some (sign * digitsToNat ip, 1)
  | '.' :: r =>
    let fp := r.takeWhile Char.isDigit
    let rest2 := r.dropWhile Char.isDigit
    if rest2.isEmpty && !(ip.isEmpty && fp.isEmpty) then
      some (sign * (digitsToNat ip * 10 ^ fp.length + digitsToNat fp), 10 ^ fp.length)
    else none
  | _ => none

/-- Python's `int()` builtin on a string: optional sign followed by digits. -/
def pyIntOfString (s : String) : Option Int :=
  let l := s.data
  let signed : Int × List Char :=
    match l with
    | '+' :: r => (1, r)
    | '-' :: r => (-1, r)
    | _ => (1, l)
  if signed.2.isEmpty = false && signed.2.all Char.isDigit then
    some (signed.1 * digitsToNat signed.2)
  else none

/-- Python's `int()` builtin on a fraction: truncation toward zero
(`Int.tdiv` is T-division, matching Python `int(float)`). -/
def pyTrunc (num : Int) (den : Nat) : Int :=
  Int.tdiv num den

/-! ### `parse_size` (`tool.py` lines 394-422) -/

/-- The `multipliers` dict of `parse_size`, as an ordered association list
(Python dicts iterate in insertion order, which is load-bearing here). -/
def multipliers : List (String × Int) :=
  [("B", 1),
   ("K", 1024),
   ("KB", 1024),
   ("M", 1024 ^ 2),
   ("MB", 1024 ^ 2),
   ("G", 1024 ^ 3),
   ("GB", 1024 ^ 3),
   ("T", 1024 ^ 4),
   ("TB", 1024 ^ 4)]

/-- The `for suffix, multiplier in multipliers.items()` loop of `parse_size`:
the first entry whose suffix matches is tried; if its numeric part fails to
parse as a float the loop `break`s (yielding `none`, like falling out of the
loop without a match), otherwise the converted value is returned. -/
def suffixLoop : List (String × Int) → String → Option Int
  | [], _ => none
  | (suf, mult) :: rest, t =>
    if pyEndsWith t suf then
      match pyFloat (pyDropRight t suf.data.length) with
      | some q => some (pyTrunc (q.1 * mult) q.2)
      | none => none
    else suffixLoop rest t

/-- `parse_size` (`tool.py` 394-422): strip and uppercase, try the suffix
loop, then try a plain integer, else raise `ValueError` (embedded as
`Except.error` carrying the message text, quotes omitted). -/
def parse_size (s : String) : Except String Int :=
  let t := pyUpper (pyStrip s)
  match suffixLoop multipliers t with
  | some v => .ok v
  | none =>
    match pyIntOfString t with
    | some n => .ok n
    | none => .error ("Invalid size format: " ++ t)

/-! ### Data model (`tool.py` lines 24-44) -/

/-- The `FileCategory` enum. -/
inductive FileCategory
  | text
  | image
  | executable
  | archive
  | document
  | video
  | audio
  | config
  | application
  | other
deriving DecidableEq, Repr

/-- All members of the `FileCategory` enum, in declaration order. -/
def FileCategory.all : List FileCategory :=
  [.text, .image, .executable, .archive, .document, .video, .audio, .config,
   .application, .other]

/-- A `pathlib.Path`, abstracted to the data the engine reads from it:
its printable form and its `suffix` (the final dotted extension). -/
structure FPath where
  name : String
  suffix : String
deriving DecidableEq, Repr

/-- The `FileInfo` dataclass. -/
structure FileInfo where
  path : FPath
  size : Nat
  category : FileCategory
  permissions_issue : Option String := none
deriving DecidableEq, Repr

/-- Truthiness of a Python `Optional[str]`: `None` and `""` are falsy. -/
def pyTruthyStr : Option String → Bool
  | none => false
  | some s => !s.isEmpty

/-! ### Classification tables (`tool.py` lines 49-129) -/

/-- `EXTENSION_MAP`, as an ordered association list (dict insertion order). -/
def EXTENSION_MAP : List (String × FileCategory) :=
  [(".txt", .text), (".md", .text), (".py", .text),
   (".js", .text), (".html", .text), (".css", .text),
   (".json", .text), (".xml", .text), (".csv", .text),
   (".log", .text),
   (".jpg", .image), (".jpeg", .image), (".png", .image),
   (".gif", .image), (".bmp", .image), (".svg", .image),
   (".ico", .image), (".webp", .image),
   (".exe", .executable), (".bin", .executable),
   (".sh", .executable), (".bat", .executable),
   (".com", .executable), (".msi", .executable),
   (".zip", .archive), (".tar", .archive), (".gz", .archive),
   (".rar", .archive), (".7z", .archive), (".bz2", .archive),
   (".xz", .archive),
   (".pdf", .document), (".doc", .document), (".docx", .document),
   (".xls", .document), (".xlsx", .document), (".ppt", .document),
   (".pptx", .document),
   (".mp4", .video), (".avi", .video), (".mkv", .video),
   (".mov", .video), (".wmv", .video), (".flv", .video),
   (".webm", .video),
   (".mp3", .audio), (".wav", .audio), (".flac", .audio),
   (".aac", .audio), (".ogg", .audio), (".wma", .audio),
   (".conf", .config), (".cfg", .config), (".ini", .config),
   (".yaml", .config), (".yml", .config), (".toml", .config)]

/-- `FILE_SIGNATURES`, as an ordered association list of (magic bytes,
category) in dict insertion order — the iteration order of the
`for signature, category in self.FILE_SIGNATURES.items()` loop. -/
def FILE_SIGNATURES : List (List Nat × FileCategory) :=
  [([0xFF, 0xD8, 0xFF], .image),
   ([0x89, 0x50, 0x4E, 0x47, 0x0D, 0x0A, 0x1A, 0x0A], .image),
   ([0x47, 0x49, 0x46, 0x38, 0x37, 0x61], .image),
   ([0x47, 0x49, 0x46, 0x38, 0x39, 0x61], .image),
   ([0x42, 0x4D], .image),
   ([0x00, 0x00, 0x01, 0x00], .image),
   ([0x50, 0x4B, 0x03, 0x04], .archive),
   ([0x50, 0x4B, 0x05, 0x06], .archive),
   ([0x50, 0x4B, 0x07, 0x08], .archive),
   ([0x1F, 0x8B], .archive),
   ([0x42, 0x5A, 0x68], .archive),
   ([0x25, 0x50, 0x44, 0x46], .document),
   ([0xD0, 0xCF, 0x11, 0xE0, 0xA1, 0xB1, 0x1A, 0xE1], .document),
   ([0x4D, 0x5A], .executable),
   ([0x7F, 0x45, 0x4C, 0x46], .executable),
   ([0xFE, 0xED, 0xFA, 0xCE], .executable),
   ([0xFE, 0xED, 0xFA, 0xCF], .executable),
   ([0xCA, 0xFE, 0xBA, 0xBE], .executable),
   ([0xCE, 0xFA, 0xED, 0xFE], .executable),
   ([0xCF, 0xFA, 0xED, 0xFE], .executable),
   ([0x49, 0x44, 0x33], .audio),
   ([0xFF, 0xFB], .audio),
   ([0x4F, 0x67, 0x67, 0x53], .audio),
   ([0x52, 0x49, 0x46, 0x46], .audio),
   ([0x66, 0x4C, 0x61, 0x43], .audio)]

/-- The magic bytes `b'RIFF'`. -/
def riffBytes : List Nat := [0x52, 0x49, 0x46, 0x46]

/-- The bytes `b'WAVE'`. -/
def waveBytes : List Nat := [0x57, 0x41, 0x56, 0x45]

/-- The bytes `b'AVI '`. -/
def aviBytes : List Nat := [0x41, 0x56, 0x49, 0x20]

/-- The bytes `b'ftyp'`. -/
def ftypBytes : List Nat := [0x66, 0x74, 0x79, 0x70]

/-! ### `_is_text_content` (`tool.py` lines 186-203) -/

/-- Membership of a byte in the `text_chars` set
`set(range(32, 127)) | {9, 10, 13}`. -/
def isTextChar (b : Nat) : Bool :=
  (32 ≤ b && b < 127) || b = 9 || b = 10 || b = 13

/-- `_is_text_content` (`tool.py` 186-203). The BOM test is Python
`match data[:3]` against the byte-string literals `b'\xef\xbb\xbf'`,
`b'\xff\xfe'`, `b'\xfe\xff'` — an equality comparison of the 3-byte
slice, exactly as the `match`/`case` statement performs it. The final
`printable_count / len(data) > 0.85` float comparison is modeled by the
exact rational inequality `100 * printable > 85 * len` (for the up to
32-byte headers read by the caller no header fraction lies close enough
to 0.85 for double rounding to disagree with the exact comparison,
except 17/20 itself, where both comparisons are false). -/
def IsTextContent (data : List Nat) : Bool :=
  if data.isEmpty then false
  else if data.take 3 = [0xEF, 0xBB, 0xBF] then true
  else if data.take 3 = [0xFF, 0xFE] || data.take 3 = [0xFE, 0xFF] then true
  else
    let printable := (data.filter isTextChar).length
    85 * data.length < 100 * printable

/-! ### `detect_file_signature` (`tool.py` lines 146-184) -/

/-- The outcome of `open(file_path, 'rb')` + `f.read(32)` for a file:
either the read header bytes, or an `OSError`/`PermissionError`. -/
inductive HeaderOutcome
  | openError
  | header (bytes : List Nat)
deriving DecidableEq, Repr

/-- The `for signature, category in self.FILE_SIGNATURES.items()` loop of
`detect_file_signature`, including the RIFF special case: on a `RIFF`
prefix with a header of at least 12 bytes, bytes 8-12 equal to `WAVE`
give Audio and `AVI ` give Video; in every other case control reaches the
unconditional `return category`. -/
def sigLoop : List (List Nat × FileCategory) → List Nat → Option FileCategory
  | [], _ => none
  | (sig, cat) :: rest, hdr =>
    if sig.isPrefixOf hdr then
      some (if sig = riffBytes ∧ 12 ≤ hdr.length then
              if (hdr.drop 8).take 4 = waveBytes then .audio
              else if (hdr.drop 8).take 4 = aviBytes then .video
              else cat
            else cat)
    else sigLoop rest hdr

/-- The MP4-family check of `detect_file_signature`: if bytes 4-8 are
`ftyp`, brands `mp41`, `mp42`, `isom`, `f4v `, `F4V `, `M4V ` give Video
and `M4A ` gives Audio; otherwise (or on a short header) no result. -/
def mp4Check (hdr : List Nat) : Option FileCategory :=
  if 12 ≤ hdr.length ∧ (hdr.drop 4).take 4 = ftypBytes then
    let brand := (hdr.drop 8).take 4
    if brand = [0x6D, 0x70, 0x34, 0x31] ∨ brand = [0x6D, 0x70, 0x34, 0x32] ∨
       brand = [0x69, 0x73, 0x6F, 0x6D] ∨ brand = [0x66, 0x34, 0x76, 0x20] ∨
       brand = [0x46, 0x34, 0x56, 0x20] then some .video
    else if brand = [0x4D, 0x34, 0x56, 0x20] then some .video
    else if brand = [0x4D, 0x34, 0x41, 0x20] then some .audio
    else none
  else none

/-- `detect_file_signature` (`tool.py` 146-184): an open failure is caught
and yields `None`; an empty header yields `None`; otherwise the signature
loop, then the MP4 check, then the text heuristic, then `None`. -/
def detect_file_signature (hdr : HeaderOutcome) : Option FileCategory :=
  match hdr with
  | .openError => none
  | .header bytes =>
    if bytes.isEmpty then none
    else
      match sigLoop FILE_SIGNATURES bytes with
      | some c => some c
      | none =>
        match mp4Check bytes with
        | some c => some c
        | none => if IsTextContent bytes then some .text else none

/-! ### `get_file_category` (`tool.py` lines 205-215) -/

/-- The extension fallback of `get_file_category`:
`self.EXTENSION_MAP.get(file_path.suffix.lower(), FileCategory.OTHER)`. -/
def extension_category (p : FPath) : FileCategory :=
  (List.lookup (pyLower p.suffix) EXTENSION_MAP).getD .other

/-- `get_file_category` (`tool.py` 205-215): with signatures enabled, a
resolved signature wins; otherwise the lowercased extension is looked up,
defaulting to `OTHER`. -/
def get_file_category (use_signatures : Bool) (p : FPath) (hdr : HeaderOutcome) :
    FileCategory :=
  if use_signatures then
    match detect_file_signature hdr with
    | some c => c
    | none => extension_category p
  else extension_category p

/-! ### `check_permissions` (`tool.py` lines 217-236) -/

/-- `stat.S_IWOTH`. -/
def S_IWOTH : Nat := 0o002

/-- `stat.S_ISUID`. -/
def S_ISUID : Nat := 0o4000

/-- `stat.S_ISGID`. -/
def S_ISGID : Nat := 0o2000

/-- `stat.S_IXUSR`. -/
def S_IXUSR : Nat := 0o100

/-- `stat.S_IFMT`, the file-type bit mask. -/
def S_IFMT : Nat := 0o170000

/-- `stat.S_IFREG`, the regular-file type bits. -/
def S_IFREG : Nat := 0o100000

/-- `SUSPICIOUS_EXECUTABLE_EXTENSIONS` (`tool.py` line 129). -/
def SUSPICIOUS_EXECUTABLE_EXTENSIONS : List String :=
  [".txt", ".log", ".conf", ".cfg", ".ini"]

/-- `check_permissions` (`tool.py` 217-236): build the `issues` list by the
four independent appends, then `", ".join(issues)` or `None` if empty. -/
def check_permissions (p : FPath) (mode : Nat) : Option String :=
  let issues : List String := []
  let issues := if mode &&& S_IWOTH ≠ 0 then issues ++ ["world-writable"] else issues
  let issues := if mode &&& S_ISUID ≠ 0 then issues ++ ["SUID"] else issues
  let issues := if mode &&& S_ISGID ≠ 0 then issues ++ ["SGID"] else issues
  let issues :=
    if mode &&& S_IXUSR ≠ 0 ∧ pyLower p.suffix ∈ SUSPICIOUS_EXECUTABLE_EXTENSIONS then
      issues ++ ["suspicious-executable"]
    else issues
  if issues.isEmpty then none else some (String.intercalate ", " issues)

/-- The four audit rules of the specification, stated as the spec words
them: each rule fires independently and contributes its tag in the fixed
order world-writable, SUID, SGID, suspicious-executable. Used to compare
`check_permissions` against the specified rule list. -/
def audit_rules (p : FPath) (mode : Nat) : List String :=
  (if mode &&& S_IWOTH ≠ 0 then ["world-writable"] else []) ++
  (if mode &&& S_ISUID ≠ 0 then ["SUID"] else []) ++
  (if mode &&& S_ISGID ≠ 0 then ["SGID"] else []) ++
  (if mode &&& S_IXUSR ≠ 0 ∧ pyLower p.suffix ∈ SUSPICIOUS_EXECUTABLE_EXTENSIONS then
    ["suspicious-executable"]
   else [])

/-! ### `analyze_file` (`tool.py` lines 238-260) -/

/-- The result of `os.stat` on a path: the `st_mode` and `st_size` fields
the code reads, or an `OSError`/`PermissionError` with its message. -/
inductive StatOutcome
  | statError (msg : String)
  | ok (mode : Nat) (size : Nat)
deriving DecidableEq, Repr

/-- One candidate file as the traversal hands it to `analyze_file`: its
path together with the outcomes the OS produces for the `stat` call and
for the header read. -/
structure FileInput where
  path : FPath
  stat : StatOutcome
  header : HeaderOutcome
deriving DecidableEq, Repr

/-- Configuration of `FileSystemAnalyzer.__init__` (`tool.py` 131-135). -/
structure Config where
  size_threshold : Nat := 1024 * 1024
  use_signatures : Bool := true
  max_large_files : Nat := 10
deriving DecidableEq, Repr

/-- `analyze_file` (`tool.py` 238-260): a stat failure appends a
`(path, message)` entry to `self.errors` and produces no record; a
non-regular file (`not stat.S_ISREG(st_mode)`) produces neither record
nor error; otherwise the file is classified and audited into a
`FileInfo`. The errors list is threaded explicitly. -/
def analyze_file (cfg : Config) (inp : FileInput) (errors : List (FPath × String)) :
    Option FileInfo × List (FPath × String) :=
  match inp.stat with
  | .statError msg => (none, errors ++ [(inp.path, msg)])
  | .ok mode size =>
    if mode &&& S_IFMT = S_IFREG then
      (some { path := inp.path
              size := size
              category := get_file_category cfg.use_signatures inp.path inp.header
              permissions_issue := check_permissions inp.path mode }, errors)
    else (none, errors)

/-! ### The aggregation loop of `analyze_directory` (`tool.py` 262-299) -/

/-- The analyzer's mutable result attributes (`tool.py` 137-144):
`files_by_category` and `category_sizes` are `defaultdict`s, embedded as
total functions from categories (missing key = `[]` / `0`). -/
structure ScanState where
  files_by_category : FileCategory → List FileInfo
  category_sizes : FileCategory → Nat
  large_files : List FileInfo
  permission_issues : List FileInfo
  total_files : Nat
  total_size : Nat
  errors : List (FPath × String)

/-- The empty state built by `__init__`. -/
def initState : ScanState where
  files_by_category := fun _ => []
  category_sizes := fun _ => 0
  large_files := []
  permission_issues := []
  total_files := 0
  total_size := 0
  errors := []

/-- The `if file_info:` block of `analyze_directory` (`tool.py` 284-299):
bump the counters, append into the category bucket and add to the
category size, append to `large_files` when strictly above the threshold,
and append to `permission_issues` when the issue string is truthy. -/
def acceptFile (cfg : Config) (s : ScanState) (fi : FileInfo) : ScanState :=
  { s with
    total_files := s.total_files + 1
    total_size := s.total_size + fi.size
    files_by_category := fun c =>
      if c = fi.category then s.files_by_category c ++ [fi] else s.files_by_category c
    category_sizes := fun c =>
      if c = fi.category then s.category_sizes c + fi.size else s.category_sizes c
    large_files :=
      if cfg.size_threshold < fi.size then s.large_files ++ [fi] else s.large_files
    permission_issues :=
      if pyTruthyStr fi.permissions_issue then s.permission_issues ++ [fi]
      else s.permission_issues }

/-- One iteration of the `for file_name in files` loop (`tool.py`
280-299): run `analyze_file` (which may record an error) and, when it
returns a record, accept it into the state. -/
def processFile (cfg : Config) (s : ScanState) (inp : FileInput) : ScanState :=
  match analyze_file cfg inp s.errors with
  | (some fi, errors2) => acceptFile cfg { s with errors := errors2 } fi
  | (none, errors2) => { s with errors := errors2 }

/-- The whole aggregation loop over the sequence of candidate files the
traversal yields. -/
def scan (cfg : Config) (inputs : List FileInput) : ScanState :=
  inputs.foldl (processFile cfg) initState

/-! ### The ScanState invariant (spec section 3) -/

/-- `sum(len(v) for v in files_by_category.values())` — every category is
a key of the embedded total-function `defaultdict`, missing ones holding
`[]`. -/
def countSum (f : FileCategory → List FileInfo) : Nat :=
  (FileCategory.all.map (fun c => (f c).length)).sum

/-- `sum(category_sizes.values())`. -/
def sizeSum (g : FileCategory → Nat) : Nat :=
  (FileCategory.all.map g).sum

/-- The ScanState invariant of spec section 3: the counters agree with
the per-category sums, large files strictly exceed the threshold, and
permission-issue records carry a present issue string. -/
def scanInvariant (cfg : Config) (s : ScanState) : Prop :=
  s.total_files = countSum s.files_by_category ∧
  s.total_size = sizeSum s.category_sizes ∧
  (∀ fi ∈ s.large_files, cfg.size_threshold < fi.size) ∧
  (∀ fi ∈ s.permission_issues, fi.permissions_issue.isSome)

/-! ### Report finalization (`generate_report`, `tool.py` lines 322-392) -/

/-- The comparison realized by `self.large_files.sort(key=lambda x: x.size,
reverse=True)` — a stable sort placing larger sizes first. -/
def largeDesc (a b : FileInfo) : Bool :=
  b.size ≤ a.size

/-- Code-point lexicographic `≤` on character lists — the order Python's
`sorted` uses on strings. -/
def charsLE : List Char → List Char → Bool
  | [], _ => true
  | _ :: _, [] => false
  | a :: as, b :: bs =>
    if a.toNat < b.toNat then true
    else if b.toNat < a.toNat then false
    else charsLE as bs

/-- Code-point lexicographic `≤` on strings. -/
def strLE (a b : String) : Bool :=
  charsLE a.data b.data

/-- The group that `issues_by_type[tag]` holds after the grouping loop of
`generate_report` (`tool.py` 369-372): the permission-issue records whose
truthy issue string equals the tag, in arrival order. -/
def groupFor (issues : List FileInfo) (tag : String) : List FileInfo :=
  issues.filter (fun fi => pyTruthyStr fi.permissions_issue && fi.permissions_issue == some tag)

/-- The keys of `issues_by_type` in insertion order: the distinct truthy
issue strings in order of first appearance. -/
def issueTags (issues : List FileInfo) : List String :=
  ((issues.filterMap (fun fi => fi.permissions_issue)).filter (fun t => !t.isEmpty)).eraseDups

/-- The iteration order of `sorted(issues_by_type.items())`: the tags in
ascending string order. -/
def sortedTags (issues : List FileInfo) : List String :=
  (issueTags issues).mergeSort strLE

/-- The data `generate_report` renders: the large files actually listed
(after the in-place descending sort and the `[:max_large_files]` slice),
the true large-file count behind the "and N more" line, the permission
groups in tag order with their displayed members (`files[:5]`, a literal
constant) and true sizes, and the displayed errors (`errors[:10]`). -/
structure ReportData where
  largeDisplayed : List FileInfo
  largeTotal : Nat
  permGroups : List (String × List FileInfo × Nat)
  errorsDisplayed : List (FPath × String)

/-- The finalization performed by `generate_report` (`tool.py` 322-392),
restricted to the structured data it computes from the scan state. -/
def generate_report (cfg : Config) (s : ScanState) : ReportData :=
  let sortedLarge := s.large_files.mergeSort largeDesc
  { largeDisplayed := sortedLarge.take cfg.max_large_files
    largeTotal := sortedLarge.length
    permGroups := (sortedTags s.permission_issues).map (fun tag =>
      (tag, (groupFor s.permission_issues tag).take 5,
       (groupFor s.permission_issues tag).length))
    errorsDisplayed := s.errors.take 10 }

/-! ### Claim C3: `parse_size` accepted formats -/

/-- Claim C3: the single-letter suffixes and plain byte counts behave as the
spec states (`1K` is 1024, `1.5K` is 1536, `2M` is 2097152, non-numeric
non-suffixed strings are a format error) — but, refuting the claimed
acceptance of the two-letter suffixes, `1KB`, `2MB`, `1GB` and `1TB` all
raise the format error: the suffix loop tries `B` first, `float("1K")`
fails, and the `break` skips every later suffix (the code's own help text
and error hint advertise `10MB`, and its test suite concedes the variants
"may not work", so the code contradicts its own documentation here). -/
theorem parse_size_eval :
    parse_size "1K" = .ok 1024 ∧
    parse_size "1.5K" = .ok 1536 ∧
    parse_size "2M" = .ok 2097152 ∧
    parse_size "1B" = .ok 1 ∧
    parse_size "1g" = .ok (1024 ^ 3) ∧
    parse_size "1T" = .ok (1024 ^ 4) ∧
    parse_size "1024" = .ok 1024 ∧
    parse_size "invalid" = .error "Invalid size format: INVALID" ∧
    parse_size "1KB" = .error "Invalid size format: 1KB" ∧
    parse_size "2MB" = .error "Invalid size format: 2MB" ∧
    parse_size "1GB" = .error "Invalid size format: 1GB" ∧
    parse_size "1TB" = .error "Invalid size format: 1TB" :=
  ⟨rfl, rfl, rfl, rfl, rfl, rfl, rfl, rfl, rfl, rfl, rfl, rfl⟩

/-! ### Claim C5: the text-content heuristic -/

/-- Claim C5: the UTF-8 BOM makes any header text regardless of the
remaining bytes, the empty header is never text, and the 85% printable
threshold is strict — but, refuting the claimed UTF-16 BOM handling, a
header starting with `FF FE` or `FE FF` followed by further bytes is NOT
treated as text: the code compares the 3-byte slice `data[:3]` for
equality against the 2-byte literals, which can only ever match a
2-byte-long header (the code's own comment says it is checking for UTF-16
BOMs, which this comparison defeats on any real file). -/
theorem is_text_content_eval :
    IsTextContent [0xEF, 0xBB, 0xBF, 0x00, 0x00, 0x00, 0x00, 0x00] = true ∧
    IsTextContent [0xFF, 0xFE] = true ∧
    IsTextContent [0xFE, 0xFF] = true ∧
    IsTextContent [0xFF, 0xFE, 0x41, 0x00] = false ∧
    IsTextContent [0xFE, 0xFF, 0x00, 0x41] = false ∧
    IsTextContent [] = false ∧
    IsTextContent (List.replicate 17 0x41 ++ List.replicate 3 0x00) = false ∧
    IsTextContent (List.replicate 18 0x41 ++ List.replicate 2 0x00) = true := by
  decide

/-! ### Claim C8: strict large-file threshold -/

/-- Claim C8: an accepted record lands in `large_files` exactly when its
size strictly exceeds the threshold; a record of size exactly the
threshold is not added. -/
theorem acceptFile_large_files_iff (cfg : Config) (s : ScanState) (fi g : FileInfo) :
    g ∈ (acceptFile cfg s fi).large_files ↔
      g ∈ s.large_files ∨ (g = fi ∧ cfg.size_threshold < fi.size) := by
  by_cases h : cfg.size_threshold < fi.size <;> simp [acceptFile, h]

/-! ### Claim C7: per-file error handling of `analyze_file` -/

/-- Claim C7 (counterexample): an open failure is NOT recorded in the
error list, refuting the claim that "a stat or open failure ... is
recorded as a (path, message) entry". For a regular `.txt` file whose
header read fails, `analyze_file` leaves the error list empty and still
produces a record (classified by the extension fallback). -/
theorem analyze_file_open_error_counterexample :
    (analyze_file {} ⟨⟨"secret.txt", ".txt"⟩, .ok 0o100644 42, .openError⟩ []).2 = [] ∧
    (analyze_file {} ⟨⟨"secret.txt", ".txt"⟩, .ok 0o100644 42, .openError⟩ []).1 =
      some ⟨⟨"secret.txt", ".txt"⟩, 42, .text, none⟩ := by
  decide

/-- Claim C7 (amended): a stat failure on an individual file is recorded
as a `(path, message)` entry in the error list and produces no record (the
scan continues); a non-regular file is silently skipped — neither an error
entry nor a record; and an open failure during signature reading is
silently swallowed — no error entry, and the file still produces a record
classified by the extension fallback. -/
theorem analyze_file_error_paths (cfg : Config) (inp : FileInput)
    (errs : List (FPath × String)) :
    (∀ msg, inp.stat = .statError msg →
      analyze_file cfg inp errs = (none, errs ++ [(inp.path, msg)])) ∧
    (∀ mode size, inp.stat = .ok mode size → mode &&& S_IFMT ≠ S_IFREG →
      analyze_file cfg inp errs = (none, errs)) ∧
    (∀ mode size, inp.stat = .ok mode size → mode &&& S_IFMT = S_IFREG →
      inp.header = .openError →
      analyze_file cfg inp errs =
        (some { path := inp.path
                size := size
                category := extension_category inp.path
                permissions_issue := check_permissions inp.path mode }, errs)) := by
  refine ⟨?_, ?_, ?_⟩
  · intro msg h
    simp [analyze_file, h]
  · intro mode size h hreg
    simp [analyze_file, h, hreg]
  · intro mode size h hreg hopen
    cases hu : cfg.use_signatures <;>
      simp [analyze_file, h, hreg, hopen, hu, get_file_category, detect_file_signature]

/-- Claim C7 (witness): the amended theorem applied to a concrete stat
failure, a concrete socket (non-regular, mode `0o140644`), and a concrete
open failure. -/
theorem analyze_file_error_paths_witness :
    analyze_file {} ⟨⟨"gone.txt", ".txt"⟩, .statError "No such file or directory", .header []⟩ [] =
      (none, [(⟨"gone.txt", ".txt"⟩, "No such file or directory")]) ∧
    analyze_file {} ⟨⟨"sock", ""⟩, .ok 0o140644 0, .header []⟩ [] = (none, []) ∧
    analyze_file {} ⟨⟨"secret.log", ".log"⟩, .ok 0o100600 7, .openError⟩ [] =
      (some ⟨⟨"secret.log", ".log"⟩, 7, .text, none⟩, []) :=
  ⟨(analyze_file_error_paths {} ⟨⟨"gone.txt", ".txt"⟩, .statError "No such file or directory", .header []⟩ []).1
      "No such file or directory" rfl,
   (analyze_file_error_paths {} ⟨⟨"sock", ""⟩, .ok 0o140644 0, .header []⟩ []).2.1
      0o140644 0 rfl (by decide),
   (analyze_file_error_paths {} ⟨⟨"secret.log", ".log"⟩, .ok 0o100600 7, .openError⟩ []).2.2
      0o100600 7 rfl (by decide) rfl⟩

/-! ### Claim C6: the permission-anomaly rules -/

/-- Claim C6 (counterexample): the claim's "for any mode bits" instance
fails — a mode that is world-writable and owner-executable on a `.txt`
file but additionally has the SUID bit set (mode `0o104702`) yields
`world-writable, SUID, suspicious-executable`, not exactly
`world-writable, suspicious-executable`. -/
theorem check_permissions_suid_counterexample :
    (0o104702 &&& S_IWOTH ≠ 0) ∧ (0o104702 &&& S_IXUSR ≠ 0) ∧
    check_permissions ⟨"f.txt", ".txt"⟩ 0o104702 =
      some "world-writable, SUID, suspicious-executable" ∧
    check_permissions ⟨"f.txt", ".txt"⟩ 0o104702 ≠
      some "world-writable, suspicious-executable" := by
  decide

/-- Claim C6 (amended): `check_permissions` evaluates the four rules
independently and returns the fired tags joined with `", "` in the fixed
order world-writable, SUID, SGID, suspicious-executable, and `none` when
no rule fires; and a world-writable, owner-executable `.txt` file whose
SUID and SGID bits are clear yields exactly
`world-writable, suspicious-executable`. -/
theorem check_permissions_rules (p : FPath) (mode : Nat) :
    (check_permissions p mode =
      if audit_rules p mode = [] then none
      else some (String.intercalate ", " (audit_rules p mode))) ∧
    (mode &&& S_IWOTH ≠ 0 → mode &&& S_ISUID = 0 → mode &&& S_ISGID = 0 →
      mode &&& S_IXUSR ≠ 0 → pyLower p.suffix = ".txt" →
      check_permissions p mode = some "world-writable, suspicious-executable") := by
  constructor
  · by_cases h1 : mode &&& S_IWOTH ≠ 0 <;>
      by_cases h2 : mode &&& S_ISUID ≠ 0 <;>
      by_cases h3 : mode &&& S_ISGID ≠ 0 <;>
      by_cases h4 : mode &&& S_IXUSR ≠ 0 ∧ pyLower p.suffix ∈ SUSPICIOUS_EXECUTABLE_EXTENSIONS <;>
      simp [check_permissions, audit_rules, h1, h2, h3, h4]
  · intro h1 h2 h3 h4 h5
    simp [check_permissions, h1, h2, h3, h4, h5, SUSPICIOUS_EXECUTABLE_EXTENSIONS]
    decide

/-- Claim C6 (witness): the amended rule applied at mode `0o100702`. -/
theorem check_permissions_rules_witness :
    check_permissions ⟨"f.txt", ".txt"⟩ 0o100702 =
      some "world-writable, suspicious-executable" :=
  (check_permissions_rules ⟨"f.txt", ".txt"⟩ 0o100702).2 (by decide) (by decide)
    (by decide) (by decide) (by decide)

/-! ### Claim C1: the ScanState invariant -/

lemma countSum_update (f : FileCategory → List FileInfo) (c0 : FileCategory)
    (fi : FileInfo) :
    countSum (fun c => if c = c0 then f c ++ [fi] else f c) = countSum f + 1 := by
  cases c0 <;> simp [countSum, FileCategory.all] <;> omega

lemma sizeSum_update (g : FileCategory → Nat) (c0 : FileCategory) (n : Nat) :
    sizeSum (fun c => if c = c0 then g c + n else g c) = sizeSum g + n := by
  cases c0 <;> simp [sizeSum, FileCategory.all] <;> omega

lemma pyTruthyStr_isSome {o : Option String} (h : pyTruthyStr o = true) : o.isSome := by
  cases o <;> simp_all [pyTruthyStr]

lemma acceptFile_invariant (cfg : Config) (s : ScanState) (fi : FileInfo)
    (h : scanInvariant cfg s) : scanInvariant cfg (acceptFile cfg s fi) := by
  obtain ⟨h1, h2, h3, h4⟩ := h
  refine ⟨?_, ?_, ?_, ?_⟩
  · show s.total_files + 1 = countSum (fun c =>
      if c = fi.category then s.files_by_category c ++ [fi] else s.files_by_category c)
    rw [countSum_update, ← h1]
  · show s.total_size + fi.size = sizeSum (fun c =>
      if c = fi.category then s.category_sizes c + fi.size else s.category_sizes c)
    rw [sizeSum_update, ← h2]
  · intro g hg
    by_cases hbig : cfg.size_threshold < fi.size <;> simp [acceptFile, hbig] at hg
    · rcases hg with hg | hg
      · exact h3 g hg
      · exact hg ▸ hbig
    · exact h3 g hg
  · intro g hg
    by_cases hiss : pyTruthyStr fi.permissions_issue = true <;>
      simp [acceptFile, hiss] at hg
    · rcases hg with hg | hg
      · exact h4 g hg
      · exact hg ▸ pyTruthyStr_isSome hiss
    · exact h4 g hg

lemma processFile_invariant (cfg : Config) (s : ScanState) (inp : FileInput)
    (h : scanInvariant cfg s) : scanInvariant cfg (processFile cfg s inp) := by
  obtain ⟨p, st, hd⟩ := inp
  cases st with
  | statError msg => exact h
  | ok mode size =>
    by_cases hreg : mode &&& S_IFMT = S_IFREG
    · have heq : processFile cfg s ⟨p, .ok mode size, hd⟩ =
          acceptFile cfg s
            { path := p
              size := size
              category := get_file_category cfg.use_signatures p hd
              permissions_issue := check_permissions p mode } := by
        simp [processFile, analyze_file, hreg]
      rw [heq]
      exact acceptFile_invariant cfg s _ h
    · have heq : processFile cfg s ⟨p, .ok mode size, hd⟩ = s := by
        simp [processFile, analyze_file, hreg]
      rw [heq]
      exact h

lemma initState_invariant (cfg : Config) : scanInvariant cfg initState := by
  refine ⟨?_, ?_, ?_, ?_⟩ <;>
    simp [initState, scanInvariant, countSum, sizeSum, FileCategory.all]

/-- Claim C1: the ScanState invariant — `total_files` equals the sum over
all categories of the number of stored records, `total_size` equals the
sum of the per-category sizes, every record in `large_files` strictly
exceeds the threshold, and every record in `permission_issues` has a
present issue string — holds after the scan of any input sequence (hence
at scan end), and is preserved by every single scan step (hence holds
after each accept). -/
theorem scan_invariant (cfg : Config) :
    (∀ inputs : List FileInput, scanInvariant cfg (scan cfg inputs)) ∧
    (∀ (s : ScanState) (inp : FileInput), scanInvariant cfg s →
      scanInvariant cfg (processFile cfg s inp)) := by
  constructor
  · intro inputs
    suffices h : ∀ (l : List FileInput) (s : ScanState), scanInvariant cfg s →
        scanInvariant cfg (l.foldl (processFile cfg) s) from
      h inputs initState (initState_invariant cfg)
    intro l
    induction l with
    | nil => exact fun s hs => hs
    | cons x xs ih => exact fun s hs => ih _ (processFile_invariant cfg s x hs)
  · exact processFile_invariant cfg

/-- Claim C1 (witness): the preservation part applied at the empty state
and one concrete accepted file. -/
theorem scan_invariant_witness :
    scanInvariant {} (processFile {} initState
      ⟨⟨"a.txt", ".txt"⟩, .ok 0o100644 5, .header []⟩) :=
  (scan_invariant {}).2 initState ⟨⟨"a.txt", ".txt"⟩, .ok 0o100644 5, .header []⟩
    ((scan_invariant {}).1 [])

/-! ### Claim C10: per-file error atomicity -/

/-- Claim C10: when the stat of a path fails, the scan step's entire
effect is the appending of the single `(path, message)` entry to the
error list — all other state components are untouched. -/
theorem processFile_stat_error_frame (cfg : Config) (s : ScanState) (p : FPath)
    (msg : String) (hdr : HeaderOutcome) :
    processFile cfg s ⟨p, .statError msg, hdr⟩ =
      { s with errors := s.errors ++ [(p, msg)] } :=
  rfl

/-! ### Claim C2: classification precedence and totality -/

lemma get_file_category_of_detect {p : FPath} {hdr : HeaderOutcome} {c : FileCategory}
    (h : detect_file_signature hdr = some c) : get_file_category true p hdr = c := by
  simp [get_file_category, h]

/-- Claim C2: with signature detection enabled, any header beginning with
the PNG signature classifies as Image whatever the path's extension; with
signature detection disabled, classification is by extension lookup only;
and when neither a signature resolves nor the extension table contains the
lowercased extension, the classifier returns `Other` (it always returns a
category — the embedding is a total function). -/
theorem get_file_category_png_precedence :
    (∀ (p : FPath) (rest : List Nat),
      get_file_category true p
        (.header ([0x89, 0x50, 0x4E, 0x47, 0x0D, 0x0A, 0x1A, 0x0A] ++ rest)) = .image) ∧
    (∀ (p : FPath) (hdr : HeaderOutcome),
      get_file_category false p hdr = extension_category p) ∧
    (∀ (u : Bool) (p : FPath) (hdr : HeaderOutcome),
      detect_file_signature hdr = none →
      List.lookup (pyLower p.suffix) EXTENSION_MAP = none →
      get_file_category u p hdr = .other) := by
  refine ⟨?_, ?_, ?_⟩
  · intro p rest
    have hdet : detect_file_signature
        (.header ([0x89, 0x50, 0x4E, 0x47, 0x0D, 0x0A, 0x1A, 0x0A] ++ rest)) = some .image := by
      simp [detect_file_signature, FILE_SIGNATURES, sigLoop, riffBytes, List.isPrefixOf]
    exact get_file_category_of_detect hdet
  · intro p hdr
    rfl
  · intro u p hdr h1 h2
    cases u <;> simp [get_file_category, extension_category, h1, h2]

/-- Claim C2 (witness): the precedence applied to a `.doc`-named PNG file
and the `Other` fallback applied to an unknown extension with a failed
header read. -/
theorem get_file_category_png_precedence_witness :
    get_file_category true ⟨"fake.doc", ".doc"⟩
      (.header ([0x89, 0x50, 0x4E, 0x47, 0x0D, 0x0A, 0x1A, 0x0A] ++ [0x00, 0x00])) = .image ∧
    get_file_category true ⟨"data.xyz", ".xyz"⟩ .openError = .other :=
  ⟨get_file_category_png_precedence.1 ⟨"fake.doc", ".doc"⟩ [0x00, 0x00],
   get_file_category_png_precedence.2.2 true ⟨"data.xyz", ".xyz"⟩ .openError rfl rfl⟩

/-! ### Claim C4: RIFF disambiguation -/

/-- Claim C4 (counterexample): a RIFF header whose bytes 8-12 are neither
`WAVE` nor `AVI ` (here `WEBP`) does NOT fall through — the signature
resolves to the RIFF entry's mapped category Audio, and so does a RIFF
header shorter than 12 bytes; in particular a `.txt`-named WebP file
classifies as Audio, not by the text heuristic or extension lookup
(which would give Text). -/
theorem riff_webp_counterexample :
    detect_file_signature
      (.header [0x52, 0x49, 0x46, 0x46, 0, 0, 0, 0, 0x57, 0x45, 0x42, 0x50]) = some .audio ∧
    get_file_category true ⟨"f.txt", ".txt"⟩
      (.header [0x52, 0x49, 0x46, 0x46, 0, 0, 0, 0, 0x57, 0x45, 0x42, 0x50]) = .audio ∧
    extension_category ⟨"f.txt", ".txt"⟩ = .text ∧
    detect_file_signature (.header [0x52, 0x49, 0x46, 0x46]) = some .audio := by
  decide

/-- Claim C4 (amended): for every header beginning with `RIFF`, signature
classification returns Audio when bytes 8-12 equal `WAVE` and Video when
they equal `AVI `; for any other values of bytes 8-12 (including headers
shorter than 12 bytes) the RIFF entry still resolves, to its mapped
category Audio. -/
theorem riff_resolution (tail : List Nat) :
    ((tail.drop 4).take 4 = waveBytes →
      detect_file_signature (.header (riffBytes ++ tail)) = some .audio) ∧
    ((tail.drop 4).take 4 = aviBytes →
      detect_file_signature (.header (riffBytes ++ tail)) = some .video) ∧
    ((tail.drop 4).take 4 ≠ waveBytes → (tail.drop 4).take 4 ≠ aviBytes →
      detect_file_signature (.header (riffBytes ++ tail)) = some .audio) := by
  have hdet : detect_file_signature (.header (riffBytes ++ tail)) =
      some (if riffBytes = riffBytes ∧ 12 ≤ (riffBytes ++ tail).length then
              if (tail.drop 4).take 4 = waveBytes then .audio
              else if (tail.drop 4).take 4 = aviBytes then .video
              else .audio
            else .audio) := by
    simp only [detect_file_signature, FILE_SIGNATURES, riffBytes, sigLoop]
    simp [riffBytes, List.isPrefixOf, List.drop_succ_cons]
  refine ⟨?_, ?_, ?_⟩
  · intro h
    have hl : ((tail.drop 4).take 4).length = 4 := by rw [h]; rfl
    simp only [List.length_take, List.length_drop] at hl
    have h12 : 12 ≤ (riffBytes ++ tail).length := by
      simp [riffBytes]
      omega
    rw [hdet, if_pos ⟨rfl, h12⟩, h]
    decide
  · intro h
    have hl : ((tail.drop 4).take 4).length = 4 := by rw [h]; rfl
    simp only [List.length_take, List.length_drop] at hl
    have h12 : 12 ≤ (riffBytes ++ tail).length := by
      simp [riffBytes]
      omega
    rw [hdet, if_pos ⟨rfl, h12⟩, h]
    decide
  · intro hw ha
    by_cases h12 : 12 ≤ (riffBytes ++ tail).length
    · rw [hdet, if_pos ⟨rfl, h12⟩, if_neg hw, if_neg ha]
    · rw [hdet, if_neg (fun hc => h12 hc.2)]

/-- Claim C4 (witness): the amended resolution applied to concrete WAVE,
AVI and WebP tails. -/
theorem riff_resolution_witness :
    detect_file_signature
      (.header (riffBytes ++ [0, 0, 0, 0, 0x57, 0x41, 0x56, 0x45])) = some .audio ∧
    detect_file_signature
      (.header (riffBytes ++ [0, 0, 0, 0, 0x41, 0x56, 0x49, 0x20])) = some .video ∧
    detect_file_signature
      (.header (riffBytes ++ [0, 0, 0, 0, 0x57, 0x45, 0x42, 0x50])) = some .audio :=
  ⟨(riff_resolution [0, 0, 0, 0, 0x57, 0x41, 0x56, 0x45]).1 (by decide),
   (riff_resolution [0, 0, 0, 0, 0x41, 0x56, 0x49, 0x20]).2.1 (by decide),
   (riff_resolution [0, 0, 0, 0, 0x57, 0x45, 0x42, 0x50]).2.2 (by decide) (by decide)⟩

/-! ### Claim C9: report finalization -/

lemma largeDesc_trans : ∀ a b c : FileInfo, largeDesc a b → largeDesc b c → largeDesc a c := by
  intro a b c h1 h2
  simp only [largeDesc, decide_eq_true_eq] at h1 h2 ⊢
  omega

lemma largeDesc_total : ∀ a b : FileInfo, largeDesc a b || largeDesc b a := by
  intro a b
  simp only [largeDesc, Bool.or_eq_true, decide_eq_true_eq]
  omega

lemma charsLE_total (a : List Char) : ∀ b, (charsLE a b || charsLE b a) = true := by
  induction a with
  | nil => intro b; cases b <;> simp [charsLE]
  | cons x xs ih =>
    intro b
    cases b with
    | nil => simp [charsLE]
    | cons y ys =>
      simp only [charsLE]
      rcases Nat.lt_trichotomy x.toNat y.toNat with h | h | h
      · simp [h]
      · simp only [h, lt_self_iff_false, if_false]
        exact ih ys
      · simp [h, Nat.lt_asymm h]

lemma charsLE_trans (a : List Char) : ∀ b c, charsLE a b → charsLE b c → charsLE a c := by
  induction a with
  | nil => intro b c _ _; simp [charsLE]
  | cons x xs ih =>
    intro b c h1 h2
    cases b with
    | nil => simp [charsLE] at h1
    | cons y ys =>
      cases c with
      | nil => simp [charsLE] at h2
      | cons z zs =>
        simp only [charsLE] at h1 h2 ⊢
        rcases Nat.lt_trichotomy x.toNat y.toNat with hxy | hxy | hxy
        · rcases Nat.lt_trichotomy y.toNat z.toNat with hyz | hyz | hyz
          · simp [show x.toNat < z.toNat from by omega]
          · simp [show x.toNat < z.toNat from by omega]
          · simp [show ¬ y.toNat < z.toNat from by omega, hyz] at h2
        · rcases Nat.lt_trichotomy y.toNat z.toNat with hyz | hyz | hyz
          · simp [show x.toNat < z.toNat from by omega]
          · simp only [show ¬ x.toNat < y.toNat from by omega,
              show ¬ y.toNat < x.toNat from by omega, if_false] at h1
            simp only [show ¬ y.toNat < z.toNat from by omega,
              show ¬ z.toNat < y.toNat from by omega, if_false] at h2
            simp only [show ¬ x.toNat < z.toNat from by omega,
              show ¬ z.toNat < x.toNat from by omega, if_false]
            exact ih ys zs h1 h2
          · simp [show ¬ y.toNat < z.toNat from by omega, hyz] at h2
        · simp [show ¬ x.toNat < y.toNat from by omega, hxy] at h1

lemma strLE_trans : ∀ a b c : String, strLE a b → strLE b c → strLE a c := by
  intro a b c h1 h2
  exact charsLE_trans a.data b.data c.data h1 h2

lemma strLE_total : ∀ a b : String, (strLE a b || strLE b a) = true := by
  intro a b
  exact charsLE_total a.data b.data

lemma mergeSort_filter_size (l : List FileInfo) (n : Nat) :
    (l.mergeSort largeDesc).filter (fun fi => fi.size == n) =
      l.filter (fun fi => fi.size == n) := by
  have hpair : (l.filter (fun fi => fi.size == n)).Pairwise
      (fun a b => largeDesc a b = true) := by
    apply List.pairwise_of_forall_mem_list
    intro a ha b hb
    have ha' := List.of_mem_filter ha
    have hb' := List.of_mem_filter hb
    simp only [beq_iff_eq] at ha' hb'
    simp [largeDesc, ha', hb']
  have hsub : List.Sublist (l.filter (fun fi => fi.size == n)) (l.mergeSort largeDesc) :=
    List.sublist_mergeSort largeDesc_trans largeDesc_total hpair (List.filter_sublist l)
  have hsub2 : List.Sublist (l.filter (fun fi => fi.size == n))
      ((l.mergeSort largeDesc).filter (fun fi => fi.size == n)) := by
    have h' := hsub.filter (fun fi => fi.size == n)
    have hself : (l.filter (fun fi => fi.size == n)).filter (fun fi => fi.size == n) =
        l.filter (fun fi => fi.size == n) := by
      simp
    rwa [hself] at h'
  have hperm : List.Perm ((l.mergeSort largeDesc).filter (fun fi => fi.size == n))
      (l.filter (fun fi => fi.size == n)) :=
    (List.mergeSort_perm l largeDesc).filter _
  exact (hsub2.eq_of_length hperm.length_eq.symm).symm

/-- Claim C9: at report time the large files are listed in descending
size order with ties kept in arrival order (the sort is stable: for every
size the records of that size appear in the sorted list exactly as they
arrived), each permission-issue record belongs to the group of its exact
issue string (and only records with that exact, non-empty string belong),
the tag groups are emitted in ascending (alphabetical) string order, and
each group's displayed members are capped at the literal constant 5,
independent of the configured large-files cap. -/
theorem generate_report_finalization (cfg : Config) (s : ScanState) :
    (generate_report cfg s).largeDisplayed =
        (s.large_files.mergeSort largeDesc).take cfg.max_large_files ∧
    (s.large_files.mergeSort largeDesc).Pairwise (fun a b => b.size ≤ a.size) ∧
    (∀ n : Nat, (s.large_files.mergeSort largeDesc).filter (fun fi => fi.size == n) =
        s.large_files.filter (fun fi => fi.size == n)) ∧
    (∀ (tag : String) (fi : FileInfo),
        fi ∈ groupFor s.permission_issues tag ↔
          fi ∈ s.permission_issues ∧ fi.permissions_issue = some tag ∧ tag ≠ "") ∧
    (sortedTags s.permission_issues).Pairwise (fun a b => strLE a b = true) ∧
    (generate_report cfg s).permGroups =
      (sortedTags s.permission_issues).map (fun tag =>
        (tag, (groupFor s.permission_issues tag).take 5,
         (groupFor s.permission_issues tag).length)) ∧
    (∀ cfg2 : Config,
      (generate_report cfg2 s).permGroups = (generate_report cfg s).permGroups) := by
  refine ⟨rfl, ?_, ?_, ?_, ?_, rfl, fun _ => rfl⟩
  · exact (List.sorted_mergeSort largeDesc_trans largeDesc_total s.large_files).imp
      (fun h => of_decide_eq_true h)
  · exact fun n => mergeSort_filter_size s.large_files n
  · intro tag fi
    cases hopt : fi.permissions_issue with
    | none => simp [groupFor, List.mem_filter, pyTruthyStr, hopt]
    | some a =>
      simp only [groupFor, List.mem_filter, pyTruthyStr, hopt, Bool.and_eq_true,
        Bool.not_eq_eq_eq_not, Bool.not_true, beq_iff_eq, Option.some.injEq]
      constructor
      · rintro ⟨hm, hne, heq⟩
        refine ⟨hm, heq, ?_⟩
        intro htag
        rw [htag] at heq
        rw [heq] at hne
        exact absurd hne (by decide)
      · rintro ⟨hm, heq, hne⟩
        refine ⟨hm, ?_, heq⟩
        rw [heq]
        cases htag : tag.isEmpty with
        | false => rfl
        | true => exact absurd ((String.isEmpty_iff tag).mp htag) hne
  · exact List.sorted_mergeSort strLE_trans strLE_total (issueTags s.permission_issues)
